import Mathlib

/-!
Verification development for the kubdev-auto-system backend.

The definitions below are a shallow embedding of the Python sources:

* `src/backend/app/services/kubernetes_service.py`  (class `KubernetesService`)
* `src/backend/app/services/environment_service.py` (class `EnvironmentService`)
* `src/backend/app/api/endpoints/environments.py`   (FastAPI endpoints)
* `src/backend/app/models/environment.py`, `src/backend/app/models/user.py`

External effects (the Kubernetes API, the database, timers) are made explicit:
every underlying cluster API call is represented by an `ApiOutcome` input, the
database commits performed by a function are returned as an ordered list of
record states, and gateway invocations are returned as an ordered list of
`Step`s.  Exceptions raised by the Python code are modelled with `Except`.
-/

namespace KubDev

/-- Outcome of one underlying Kubernetes client API call, as distinguished by
the `except` clauses in `kubernetes_service.py`: the call succeeds, raises an
`ApiException` carrying an HTTP status code, or raises some other exception. -/
inductive ApiOutcome where
  | success
  | apiError (httpStatus : Nat)
  | unexpected
deriving DecidableEq, Repr

/-- Lifecycle states of an environment record, from `EnvironmentStatus` in
`app/models/environment.py`. -/
inductive EnvironmentStatus where
  | pending
  | creating
  | running
  | stopping
  | stopped
  | error
  | expired
deriving DecidableEq, Repr

/-- Roles from `UserRole` in `app/models/user.py`. -/
inductive UserRole where
  | super_admin
  | org_admin
  | team_leader
  | developer
deriving DecidableEq, Repr

/-- Caller principal, from the `User` model in `app/models/user.py`
(fields not consulted by the embedded code are omitted). -/
structure User where
  id : Nat
  name : String
  role : UserRole
deriving DecidableEq, Repr

/-- Modelled from the spec: the administrator role referred to by the
specification's ownership rule.  The code under `src/` never performs a role
check in a lifecycle operation, so this predicate is taken from the spec's
notion of "administrator" (the platform admin roles of `UserRole`). -/
def isAdministrator (u : User) : Bool :=
  u.role = UserRole.super_admin || u.role = UserRole.org_admin

/-- Durable environment record, from the `EnvironmentInstance` model in
`app/models/environment.py`.  Timestamps are abstract ticks (`Nat`); columns
never read or written by the embedded functions are omitted. -/
structure EnvironmentRecord where
  id : Nat
  name : Option String
  template_id : Nat
  user_id : Nat
  k8s_namespace : String
  k8s_deployment_name : String
  k8s_service_name : Option String
  k8s_ingress_name : Option String
  status : EnvironmentStatus
  status_message : Option String
  access_url : Option String
  git_repository : Option String
  port_mappings : List Nat
  expires_at : Option Nat
  started_at : Option Nat
  stopped_at : Option Nat
  last_accessed_at : Option Nat
deriving DecidableEq, Repr

/-- Template row, from `ProjectTemplate`; only the field the embedded
functions read into the record is kept. -/
structure ProjectTemplate where
  exposed_ports : Option (List Nat)
deriving DecidableEq, Repr

/-- One gateway-level cluster operation invoked by a lifecycle function. -/
inductive ClusterCall where
  | createNamespaceCall (ns : String)
  | createResourceQuotaCall (ns : String) (quotaName : String)
  | createDeploymentCall (ns : String) (deploymentName : String)
  | createServiceCall (ns : String) (serviceName : String)
  | createIngressCall (ns : String) (ingressName : String)
  | scaleDeploymentCall (ns : String) (deploymentName : String) (replicas : Nat)
  | deleteNamespaceCall (ns : String)
  | getDeploymentStatusCall (ns : String) (deploymentName : String)
  | createCustomObjectCall (crName : Option String)
deriving DecidableEq, Repr

/-- One externally visible step of a lifecycle operation: a gateway
invocation, a timed sleep, or a Slack notification post (notification message
text is not modelled; posting failures are swallowed by the code). -/
inductive Step where
  | call (c : ClusterCall)
  | sleep (seconds : Nat)
  | notifySlack
deriving DecidableEq, Repr

/-! ## Kubernetes service (`kubernetes_service.py`)

Each wrapper takes `avail` (the `k8s_available` flag tested by
`_check_k8s_availability`) and the outcome of the underlying client call.
A returned `.error` models a raised exception. -/

/-- Message raised by `_check_k8s_availability` when `k8s_available` is false. -/
def unavailableMsg : String :=
  "Kubernetes cluster is not available. Please check your kubeconfig."

/-- Embeds `KubernetesService.create_namespace`: HTTP 409 (already exists) is
treated as success; any other `ApiException` is re-raised, as is a cluster
availability failure; non-`ApiException` errors propagate. -/
def create_namespace (avail : Bool) (out : ApiOutcome) : Except String Bool :=
  if !avail then .error unavailableMsg
  else match out with
  | .success => .ok true
  | .apiError s => if s = 409 then .ok true else .error "Failed to create namespace"
  | .unexpected => .error "unexpected error"

/-- Embeds `KubernetesService.create_resource_quota` (same shape as
`create_namespace`: 409 treated as success). -/
def create_resource_quota (avail : Bool) (out : ApiOutcome) : Except String Bool :=
  if !avail then .error unavailableMsg
  else match out with
  | .success => .ok true
  | .apiError s => if s = 409 then .ok true else .error "Failed to create resource quota"
  | .unexpected => .error "unexpected error"

/-- Embeds `KubernetesService.create_deployment`: any `ApiException` is
re-raised as an exception. -/
def create_deployment (avail : Bool) (out : ApiOutcome) : Except String Bool :=
  if !avail then .error unavailableMsg
  else match out with
  | .success => .ok true
  | .apiError _ => .error "Failed to create deployment"
  | .unexpected => .error "unexpected error"

/-- Embeds `KubernetesService.create_service`. -/
def create_service (avail : Bool) (out : ApiOutcome) : Except String Bool :=
  if !avail then .error unavailableMsg
  else match out with
  | .success => .ok true
  | .apiError _ => .error "Failed to create service"
  | .unexpected => .error "unexpected error"

/-- Embeds `KubernetesService.create_ingress`. -/
def create_ingress (avail : Bool) (out : ApiOutcome) : Except String Bool :=
  if !avail then .error unavailableMsg
  else match out with
  | .success => .ok true
  | .apiError _ => .error "Failed to create ingress"
  | .unexpected => .error "unexpected error"

/-- Embeds `KubernetesService.scale_deployment`.  The function never raises:
an unavailable cluster, any `ApiException` (including a missing deployment,
HTTP 404) and any unexpected exception all return `false`; only a completed
read-modify-patch returns `true`. -/
def scale_deployment (avail : Bool) (out : ApiOutcome)
    (ns deploymentName : String) (replicas : Nat) : Bool :=
  if !avail then false
  else match out with
  | .success => true
  | .apiError _ => false
  | .unexpected => false

/-- Embeds `KubernetesService.delete_namespace`: returns `true` on success or
HTTP 404 ("namespace already deleted"), returns `false` on any other
`ApiException`; an unavailable cluster or an unexpected exception raises. -/
def delete_namespace (avail : Bool) (out : ApiOutcome) : Except String Bool :=
  if !avail then .error unavailableMsg
  else match out with
  | .success => .ok true
  | .apiError s => if s = 404 then .ok true else .ok false
  | .unexpected => .error "unexpected error"

/-- Result dictionary of `KubernetesService.get_deployment_status`. -/
structure DeploymentStatusView where
  name : String
  ns : String
  status : String
  ready_replicas : Nat
  total_replicas : Nat
deriving DecidableEq, Repr

/-- Embeds `KubernetesService.get_deployment_status`.  The function never
raises: an unavailable cluster, an `ApiException` and an unexpected exception
all yield `status = "Error"` with zero replica counts.  On success the
deployment's possibly-absent replica counters (`ready`, `total`) default to
`0`, and `status` is `"Running"` exactly when the ready counter is truthy. -/
def get_deployment_status (avail : Bool) (out : ApiOutcome) (ns deploymentName : String)
    (ready total : Option Nat) : DeploymentStatusView :=
  if !avail then ⟨deploymentName, ns, "Error", 0, 0⟩
  else match out with
  | .success =>
      ⟨deploymentName, ns,
        if ready.getD 0 ≠ 0 then "Running" else "Pending",
        ready.getD 0, total.getD 0⟩
  | .apiError _ => ⟨deploymentName, ns, "Error", 0, 0⟩
  | .unexpected => ⟨deploymentName, ns, "Error", 0, 0⟩

/-- Python truthiness for an optional string (`not x` on `None` or `""`). -/
def pyFalsy (o : Option String) : Bool :=
  match o with
  | none => true
  | some s => s.isEmpty

/-- Custom resource dictionary as consulted by the embedded code: the nested
`metadata` and `spec` lookups are flattened, with `none` standing for an
absent key. -/
structure CustomObject where
  apiVersion : Option String
  kind : Option String
  metadata_name : Option String
  metadata_namespace : Option String
  spec_userName : Option String
  spec_gitRepository : Option String
deriving DecidableEq, Repr

/-- Embeds `KubernetesService.create_custom_object` (second definition in the
file, which shadows the first): availability check, presence check of
`apiVersion`/`kind`/`metadata.name` (raises `ValueError`), `apiVersion` split
on a single `/` (raises on malformed versions), then the cluster call, whose
`ApiException` is re-raised as a wrapped exception. -/
def create_custom_object (avail : Bool) (cr : CustomObject) (out : ApiOutcome) :
    Except String CustomObject :=
  if !avail then .error unavailableMsg
  else if pyFalsy cr.apiVersion || pyFalsy cr.kind || pyFalsy cr.metadata_name then
    .error "Custom object must have apiVersion, kind, and metadata.name"
  else if (cr.apiVersion.getD "").toList.count '/' ≠ 1 then
    .error "not enough values to unpack"
  else match out with
  | .success => .ok cr
  | .apiError _ => .error "Failed to create custom object"
  | .unexpected => .error "unexpected error"

/-! ## Name sanitization (`sanitize_for_k8s` inside
`EnvironmentService.create_environment_from_yaml`) -/

/-- Character class `[a-z0-9]` tested by the regex and by `str.isalnum` on the
cleaned alphabet. -/
def isLowerAlnum (c : Char) : Bool :=
  ('a' ≤ c && c ≤ 'z') || ('0' ≤ c && c ≤ '9')

/-- Models `unicodedata.normalize('NFKD', name).encode('ASCII', 'ignore')`:
non-ASCII characters are dropped.  (The NFKD decomposition step, which only
rewrites non-ASCII characters before they are dropped or reduced to ASCII
base letters, is approximated by the identity; every claim proved below about
the remainder of the pipeline holds for an arbitrary intermediate string.) -/
def asciiOnly (s : String) : String :=
  ⟨s.toList.filter (fun c => c.toNat < 128)⟩

/-- Models `re.sub(r'-+', '-', s)`: collapse each run of dashes to one dash. -/
def collapseDashes : List Char → List Char
  | [] => []
  | [c] => [c]
  | c :: d :: rest =>
      if c = '-' && d = '-' then collapseDashes (d :: rest)
      else c :: collapseDashes (d :: rest)

/-- Drops trailing dashes (second half of `str.strip('-')`). -/
def dropTrailingDashes : List Char → List Char
  | [] => []
  | c :: rest =>
      let r := dropTrailingDashes rest
      if r.isEmpty && c = '-' then [] else c :: r

/-- Models `str.strip('-')`. -/
def stripDashes (l : List Char) : List Char :=
  dropTrailingDashes (l.dropWhile (fun c => c = '-'))

/-- Cleaning pipeline of `sanitize_for_k8s` on the ASCII-reduced character
list: replace spaces with dashes, lowercase, drop characters outside
`[a-z0-9-]` (the regex `[^a-z0-9-]`), collapse dash runs (`-+` to `-`), strip
leading and trailing dashes. -/
def sanitizeClean (s : String) : List Char :=
  stripDashes (collapseDashes
    (((s.toList.map (fun c => if c = ' ' then '-' else c)).map Char.toLower).filter
      (fun c => isLowerAlnum c || c = '-')))

/-- Fallback and truncation of `sanitize_for_k8s`: if the cleaned string is
empty or does not start with an alphanumeric, substitute `user-<id>`; then
truncate to 63 characters. -/
def sanitizeCoreList (s : String) (userId : Nat) : List Char :=
  (if (sanitizeClean s).isEmpty || !isLowerAlnum ((sanitizeClean s).headD 'a') then
      ("user-" ++ Nat.repr userId).toList
    else sanitizeClean s).take 63

/-- Embeds `sanitize_for_k8s(name)` (the enclosing user's id feeds the
fallback string `f"user-\x7buser.id\x7d"`). -/
def sanitize_for_k8s (name : String) (userId : Nat) : String :=
  ⟨sanitizeCoreList (asciiOnly name) userId⟩

/-! ## Environment service (`environment_service.py`) -/

deriving instance DecidableEq for Except

/-- Commits, gateway steps and returned value/raised exception of one
lifecycle operation.  `commits` lists the record states written by
`self.db.commit()` in order; `steps` lists gateway invocations, sleeps and
notification posts in order. -/
structure LifecycleResult where
  commits : List EnvironmentRecord
  steps : List Step
  outcome : Except String String
deriving DecidableEq, Repr

/-- Number of hours added to `expires_at` (`settings.ENVIRONMENT_TIMEOUT_HOURS`,
default 8 in `app/core/config.py`); time is counted in abstract hour ticks. -/
def ENVIRONMENT_TIMEOUT_HOURS : Nat := 8

/-- Embeds `EnvironmentService.deploy_environment` for a record that exists.
Inputs: the template row (if found), cluster availability, and the outcome of
each cluster call issued on the happy path, in source order (namespace,
resource quota, deployment, service, ingress).  The function first commits
`CREATING`, then on any raised cluster error commits `ERROR` and re-raises;
on success it commits `RUNNING` with the ingress URL, `started_at`, a default
`expires_at` and the template's ports.  (The detached
`_wait_for_deployment_ready` task it spawns is modelled separately.) -/
def deploy_environment (env : EnvironmentRecord) (template : Option ProjectTemplate)
    (avail : Bool) (oNs oQuota oDep oSvc oIng : ApiOutcome) (now : Nat) :
    LifecycleResult :=
  match template with
  | none => { commits := [], steps := [], outcome := .error "Template not found" }
  | some t =>
    let creating : EnvironmentRecord :=
      { env with status := .creating, status_message := some "Deploying to Kubernetes..." }
    let quotaName := "quota-" ++ env.k8s_deployment_name
    let nsStep := Step.call (.createNamespaceCall env.k8s_namespace)
    let quotaStep := Step.call (.createResourceQuotaCall env.k8s_namespace quotaName)
    let depStep := Step.call (.createDeploymentCall env.k8s_namespace env.k8s_deployment_name)
    let svcStep := Step.call (.createServiceCall env.k8s_namespace (env.k8s_service_name.getD ""))
    let ingressName := "ing-" ++ env.k8s_deployment_name
    let ingStep := Step.call (.createIngressCall env.k8s_namespace ingressName)
    let failed := fun (steps : List Step) (e : String) =>
      { commits := [creating,
          { creating with status := .error, status_message := some ("Deployment failed: " ++ e) }],
        steps := steps, outcome := .error e : LifecycleResult }
    match create_namespace avail oNs with
    | .error e => failed [nsStep] e
    | .ok _ =>
    match create_resource_quota avail oQuota with
    | .error e => failed [nsStep, quotaStep] e
    | .ok _ =>
    match create_deployment avail oDep with
    | .error e => failed [nsStep, quotaStep, depStep] e
    | .ok _ =>
    match create_service avail oSvc with
    | .error e => failed [nsStep, quotaStep, depStep, svcStep] e
    | .ok _ =>
    match create_ingress avail oIng with
    | .error e => failed [nsStep, quotaStep, depStep, svcStep, ingStep] e
    | .ok _ =>
      let ingressHost := env.k8s_deployment_name ++ ".kubdev.local"
      let running : EnvironmentRecord :=
        { creating with
            k8s_ingress_name := some ingressName,
            access_url := some ("http://" ++ ingressHost),
            status := .running,
            status_message := some "Environment is ready",
            started_at := some now,
            expires_at := match env.expires_at with
              | some e => some e
              | none => some (now + ENVIRONMENT_TIMEOUT_HOURS),
            port_mappings := t.exposed_ports.getD [] }
      { commits := [creating, running],
        steps := [nsStep, quotaStep, depStep, svcStep, ingStep],
        outcome := .ok "deployed" }

/-- One iteration's observation inside `_wait_for_deployment_ready`: either a
deployment status view (the status call itself never raises) or an exception
from the loop body (commit/sleep), which the code turns into `ERROR`. -/
inductive PollResult where
  | view (ds : DeploymentStatusView)
  | failure (msg : String)
deriving DecidableEq, Repr

/-- Embeds the loop of `EnvironmentService._wait_for_deployment_ready` for a
record that exists, over the finite list of polls performed within
`max_wait_time`; the empty list is the loop's timeout (`while`/`else`)
branch.  A poll with at least one ready replica commits `RUNNING`; a loop
exception commits `ERROR`; exhaustion commits the timeout `ERROR`. -/
def wait_for_deployment_ready (env : EnvironmentRecord) : List PollResult → EnvironmentRecord
  | [] =>
      { env with
        status := .error,
        status_message := some "Deployment timeout - environment did not become ready" }
  | .view ds :: rest =>
      if 1 ≤ ds.ready_replicas then
        { env with
          status := .running,
          status_message := some "Environment is running and ready" }
      else wait_for_deployment_ready env rest
  | .failure e :: _ =>
      { env with status := .error, status_message := some ("Health check failed: " ++ e) }

/-- Embeds `EnvironmentService.start_environment` for a record that exists.
A record already in `RUNNING` returns immediately.  Otherwise the deployment
status is read (this call never raises); on `"not_found"` the code would
redeploy via `deploy_environment` (the status view in fact never carries
`"not_found"`, so this branch is dead); on any other status it commits
`RUNNING` with fresh `started_at`/`last_accessed_at`, leaving every other
field — in particular `access_url` — unchanged. -/
def start_environment (env : EnvironmentRecord) (template : Option ProjectTemplate)
    (avail : Bool) (statusOut : ApiOutcome) (ready total : Option Nat)
    (oNs oQuota oDep oSvc oIng : ApiOutcome) (now : Nat) : LifecycleResult :=
  if env.status = .running then
    { commits := [], steps := [], outcome := .ok "Environment is already running" }
  else
    let ds := get_deployment_status avail statusOut env.k8s_namespace env.k8s_deployment_name
      ready total
    let statusStep := Step.call (.getDeploymentStatusCall env.k8s_namespace env.k8s_deployment_name)
    if ds.status = "not_found" then
      let r := deploy_environment env template avail oNs oQuota oDep oSvc oIng now
      match r.outcome with
      | .ok _ =>
          { commits := r.commits, steps := statusStep :: r.steps,
            outcome := .ok "Environment started successfully" }
      | .error e =>
          let base := r.commits.getLast?.getD env
          { commits := r.commits ++
              [{ base with status := .error, status_message := some ("Failed to start: " ++ e) }],
            steps := statusStep :: r.steps, outcome := .error e }
    else
      { commits := [{ env with
            status := .running,
            started_at := some now, last_accessed_at := some now }],
        steps := [statusStep], outcome := .ok "Environment started successfully" }

/-- Embeds `EnvironmentService.stop_environment` for a record that exists.
The record's current state is not examined.  One scale-to-zero call is
issued and its boolean result is discarded; the record is then committed
`STOPPED` with `stopped_at` and a fixed message, unconditionally, and the
stop notification is posted (posting failures swallowed). -/
def stop_environment (env : EnvironmentRecord) (avail : Bool) (out : ApiOutcome)
    (now : Nat) : LifecycleResult :=
  let _ := scale_deployment avail out env.k8s_namespace env.k8s_deployment_name 0
  { commits := [{ env with
      status := .stopped, stopped_at := some now,
      status_message := some "Environment stopped - scaled down to 0" }],
    steps := [Step.call (.scaleDeploymentCall env.k8s_namespace env.k8s_deployment_name 0),
      Step.notifySlack],
    outcome := .ok "Environment stopped successfully - scaled down to 0" }

/-- Embeds `EnvironmentService.restart_environment` for a record that exists:
scale to 0, `asyncio.sleep(5)`, scale to 1 — both scale results discarded —
then an unconditional `RUNNING` commit.  Since `scale_deployment` never
raises, the `except` branch that would commit `ERROR` is unreachable from the
scale calls. -/
def restart_environment (env : EnvironmentRecord) (avail : Bool)
    (oDown oUp : ApiOutcome) : LifecycleResult :=
  let _ := scale_deployment avail oDown env.k8s_namespace env.k8s_deployment_name 0
  let _ := scale_deployment avail oUp env.k8s_namespace env.k8s_deployment_name 1
  { commits := [{ env with
      status := .running,
      status_message := some "Environment restarted successfully" }],
    steps := [Step.call (.scaleDeploymentCall env.k8s_namespace env.k8s_deployment_name 0),
      Step.sleep 5,
      Step.call (.scaleDeploymentCall env.k8s_namespace env.k8s_deployment_name 1)],
    outcome := .ok "Environment restarted successfully - Pod recreated with PVC remount" }

/-- Result of `EnvironmentService.delete_environment`. -/
structure DeleteResult where
  recordRemoved : Bool
  steps : List Step
  outcome : Except String String
deriving DecidableEq, Repr

/-- Embeds `EnvironmentService.delete_environment` for a record that exists.
`delete_namespace` raises only when the cluster is unavailable or an
unexpected exception occurs; then the record is kept and a wrapped error is
raised.  Its boolean return value — `false` on a non-404 `ApiException` — is
discarded: the delete notification is posted and the record removed whether
the namespace deletion reported `true` or `false`. -/
def delete_environment (env : EnvironmentRecord) (avail : Bool) (out : ApiOutcome) :
    DeleteResult :=
  let nsStep := Step.call (.deleteNamespaceCall env.k8s_namespace)
  match delete_namespace avail out with
  | .error e =>
      { recordRemoved := false, steps := [nsStep],
        outcome := .error ("Failed to delete environment: " ++ e) }
  | .ok _ =>
      { recordRemoved := true, steps := [nsStep, Step.notifySlack],
        outcome := .ok "Environment deleted successfully - namespace and all resources removed" }

/-! ## Environment creation from a YAML manifest

Two code paths submit a `KubeDevEnvironment` custom resource: the service
method `EnvironmentService.create_environment_from_yaml` and the endpoint
`create_environment_from_yaml` in `api/endpoints/environments.py`.  The byte
decoding and YAML parsing of the upload are abstracted into inputs. -/

/-- Result of decoding the uploaded bytes (`utf-8`, then `cp949` fallback). -/
inductive YamlDecode where
  | utf8
  | cp949Fallback
  | undecodable
deriving DecidableEq, Repr

/-- Result of `yaml.safe_load` on the decoded string. -/
inductive YamlParse where
  | dict (cr : CustomObject)
  | notDict
  | yamlError (msg : String)
deriving DecidableEq, Repr

/-- Result of one creation request: the custom resource actually submitted to
the cluster (if submission was reached), the record committed to the store
(if any), and the returned value or raised error. -/
structure CreateResult where
  submitted : Option CustomObject
  persisted : Option EnvironmentRecord
  outcome : Except String String
deriving DecidableEq, Repr

/-- Embeds `EnvironmentService.create_environment_from_yaml`:
template lookup, decode with `cp949` fallback, parse, dictionary check,
`apiVersion`/`kind` check, then injection of the sanitized user name into
`spec.userName` and of the deterministic `env-user-<id>` into
`metadata.name`, and finally the cluster submission; only after a successful
submission is a `CREATING` record committed.  On a submission failure the
transaction is rolled back and a wrapped error raised. -/
def create_environment_from_yaml (templateFound : Bool) (template_id : Nat) (user : User)
    (decode : YamlDecode) (parse : YamlParse) (avail : Bool) (crOut : ApiOutcome)
    (newId : Nat) : CreateResult :=
  if !templateFound then
    { submitted := none, persisted := none,
      outcome := .error ("ProjectTemplate with id " ++ Nat.repr template_id ++ " not found.") }
  else match decode with
  | .undecodable =>
      { submitted := none, persisted := none,
        outcome := .error
          "Could not decode file. Please ensure it is saved with UTF-8 or CP949 encoding." }
  | _ =>
    match parse with
    | .notDict =>
        { submitted := none, persisted := none,
          outcome := .error "Invalid YAML format: not a dictionary." }
    | .yamlError m =>
        { submitted := none, persisted := none,
          outcome := .error ("YAML parsing error: " ++ m) }
    | .dict cr =>
      if cr.apiVersion ≠ some "kubedev.my-project.com/v1alpha1"
          || cr.kind ≠ some "KubeDevEnvironment" then
        { submitted := none, persisted := none,
          outcome := .error
            "Invalid YAML: apiVersion or kind does not match KubeDevEnvironment CRD." }
      else
        let crFinal : CustomObject :=
          { cr with
            spec_userName := some (sanitize_for_k8s user.name user.id),
            metadata_name := some ("env-user-" ++ Nat.repr user.id) }
        match create_custom_object avail crFinal crOut with
        | .error e =>
            { submitted := some crFinal, persisted := none,
              outcome := .error ("Failed to create environment: " ++ e) }
        | .ok _ =>
          let envName := crFinal.metadata_name
          let environment : EnvironmentRecord :=
            { id := newId,
              name := envName,
              template_id := template_id,
              user_id := user.id,
              k8s_namespace := crFinal.metadata_namespace.getD "default",
              k8s_deployment_name := envName.getD "",
              k8s_service_name := none,
              k8s_ingress_name := none,
              status := .creating,
              status_message := none,
              access_url := none,
              git_repository := crFinal.spec_gitRepository,
              port_mappings := [],
              expires_at := none,
              started_at := none,
              stopped_at := none,
              last_accessed_at := none }
          { submitted := some crFinal, persisted := some environment,
            outcome := .ok "KubeDevEnvironment custom resource created successfully." }

/-- Models `file.filename.lower().endswith(('.yaml', '.yml'))` at the
character-list level. -/
def hasYamlSuffix (filename : String) : Bool :=
  ".yaml".data.isSuffixOf (filename.data.map Char.toLower)
    || ".yml".data.isSuffixOf (filename.data.map Char.toLower)

/-- Result of the HTTP endpoint variant: raised `HTTPException`s carry an
HTTP status code and a detail string. -/
structure EndpointCreateResult where
  submitted : Option CustomObject
  persisted : Option EnvironmentRecord
  outcome : Except (Nat × String) String
deriving DecidableEq, Repr

/-- Embeds the endpoint `create_environment_from_yaml` in
`api/endpoints/environments.py`: template lookup (404), file extension check
(400), decode (400), parse and dictionary check (400), `apiVersion`/`kind`
check (400); then `spec.userName` is overwritten with the authenticated
user's RAW name — no sanitization and no `metadata.name` rewrite — and the
custom resource is submitted; only after a successful submission is a
`CREATING` record committed, else the transaction is rolled back (500). -/
def endpoint_create_environment_from_yaml (templateFound : Bool) (template_id : Nat)
    (filename : String) (user : User) (decode : YamlDecode) (parse : YamlParse)
    (avail : Bool) (crOut : ApiOutcome) (newId : Nat) : EndpointCreateResult :=
  if !templateFound then
    { submitted := none, persisted := none,
      outcome := .error (404,
        "ProjectTemplate with id " ++ Nat.repr template_id ++ " not found.") }
  else if !hasYamlSuffix filename then
    { submitted := none, persisted := none,
      outcome := .error (400, "Invalid file type. Only .yaml or .yml files are accepted.") }
  else match decode with
  | .undecodable =>
      { submitted := none, persisted := none,
        outcome := .error (400,
          "Could not decode file. Please ensure it is saved with UTF-8 or CP949 encoding.") }
  | _ =>
    match parse with
    | .notDict =>
        { submitted := none, persisted := none,
          outcome := .error (400, "Invalid YAML format: not a dictionary.") }
    | .yamlError m =>
        { submitted := none, persisted := none,
          outcome := .error (400, "YAML parsing error: " ++ m) }
    | .dict cr =>
      if cr.apiVersion ≠ some "kubedev.my-project.com/v1alpha1"
          || cr.kind ≠ some "KubeDevEnvironment" then
        { submitted := none, persisted := none,
          outcome := .error (400,
            "Invalid YAML: apiVersion or kind does not match KubeDevEnvironment CRD.") }
      else
        let crFinal : CustomObject := { cr with spec_userName := some user.name }
        match create_custom_object avail crFinal crOut with
        | .error e =>
            { submitted := some crFinal, persisted := none,
              outcome := .error (500, "Failed to create environment: " ++ e) }
        | .ok _ =>
          let envName := crFinal.metadata_name
          let environment : EnvironmentRecord :=
            { id := newId,
              name := envName,
              template_id := template_id,
              user_id := user.id,
              k8s_namespace := crFinal.metadata_namespace.getD "default",
              k8s_deployment_name := envName.getD "",
              k8s_service_name := none,
              k8s_ingress_name := none,
              status := .creating,
              status_message := none,
              access_url := none,
              git_repository := crFinal.spec_gitRepository,
              port_mappings := [],
              expires_at := none,
              started_at := none,
              stopped_at := none,
              last_accessed_at := none }
          { submitted := some crFinal, persisted := some environment,
            outcome := .ok "KubeDevEnvironment custom resource created successfully." }

/-! ## Lifecycle action endpoint (`environment_action` in
`api/endpoints/environments.py`) -/

/-- HTTP response of the action endpoint. -/
inductive ActionResponse where
  | ok (body : String)
  | httpError (statusCode : Nat) (detail : String)
deriving DecidableEq, Repr

/-- Observable effect of one call to the action endpoint. -/
structure ActionResult where
  response : ActionResponse
  commits : List EnvironmentRecord
  steps : List Step
  recordRemoved : Bool
deriving DecidableEq, Repr

/-- External inputs consumed by the four lifecycle service calls the endpoint
can dispatch to: cluster availability and one `ApiOutcome` per underlying
call of each path. -/
structure ClusterConfig where
  avail : Bool
  template : Option ProjectTemplate
  statusOut : ApiOutcome
  statusReady : Option Nat
  statusTotal : Option Nat
  oNs : ApiOutcome
  oQuota : ApiOutcome
  oDep : ApiOutcome
  oSvc : ApiOutcome
  oIng : ApiOutcome
  stopScale : ApiOutcome
  restartScaleDown : ApiOutcome
  restartScaleUp : ApiOutcome
  deleteNs : ApiOutcome
  now : Nat
deriving DecidableEq, Repr

/-- Embeds the endpoint `environment_action`.  The route takes no caller
principal of any kind (its comment marks it as demo-mode, "no auth"): after
the record lookup (404 when absent) the requested action is dispatched
directly to the environment service.  A service exception surfaces as HTTP
500 with the wrapped message; the in-`try` `HTTPException(400)` raised for an
unknown action is itself caught by the generic handler and re-raised as 500.
The success body is the source's message with the quote marks around the
action name omitted. -/
def environment_action (env : Option EnvironmentRecord) (action : String)
    (cfg : ClusterConfig) : ActionResult :=
  match env with
  | none =>
      { response := .httpError 404 "Environment not found",
        commits := [], steps := [], recordRemoved := false }
  | some e =>
    let executed := ActionResponse.ok ("Action " ++ action ++ " executed successfully")
    if action = "start" then
      let r := start_environment e cfg.template cfg.avail cfg.statusOut cfg.statusReady
        cfg.statusTotal cfg.oNs cfg.oQuota cfg.oDep cfg.oSvc cfg.oIng cfg.now
      match r.outcome with
      | .ok _ =>
          { response := executed, commits := r.commits, steps := r.steps,
            recordRemoved := false }
      | .error msg =>
          { response := .httpError 500 ("Action failed: " ++ msg),
            commits := r.commits, steps := r.steps, recordRemoved := false }
    else if action = "stop" then
      let r := stop_environment e cfg.avail cfg.stopScale cfg.now
      match r.outcome with
      | .ok _ =>
          { response := executed, commits := r.commits, steps := r.steps,
            recordRemoved := false }
      | .error msg =>
          { response := .httpError 500 ("Action failed: " ++ msg),
            commits := r.commits, steps := r.steps, recordRemoved := false }
    else if action = "restart" then
      let r := restart_environment e cfg.avail cfg.restartScaleDown cfg.restartScaleUp
      match r.outcome with
      | .ok _ =>
          { response := executed, commits := r.commits, steps := r.steps,
            recordRemoved := false }
      | .error msg =>
          { response := .httpError 500 ("Action failed: " ++ msg),
            commits := r.commits, steps := r.steps, recordRemoved := false }
    else if action = "delete" then
      let r := delete_environment e cfg.avail cfg.deleteNs
      match r.outcome with
      | .ok _ =>
          { response := executed, commits := [], steps := r.steps,
            recordRemoved := r.recordRemoved }
      | .error msg =>
          { response := .httpError 500 ("Action failed: " ++ msg),
            commits := [], steps := r.steps, recordRemoved := r.recordRemoved }
    else
      { response := .httpError 500 "Action failed: 400: Invalid action",
        commits := [], steps := [], recordRemoved := false }

/-! ## Cluster namespace model

For the idempotence claim about `create_namespace` / `delete_namespace`, the
cluster's namespace collection is modelled as a list of distinct names and
the underlying API outcome is derived from it: creating an existing
namespace yields HTTP 409, deleting a missing one yields HTTP 404. -/

/-- Models the cluster-side effect and outcome of a namespace creation. -/
def apiCreateNamespace (cluster : List String) (ns : String) : ApiOutcome × List String :=
  if ns ∈ cluster then (.apiError 409, cluster) else (.success, ns :: cluster)

/-- Models the cluster-side effect and outcome of a namespace deletion. -/
def apiDeleteNamespace (cluster : List String) (ns : String) : ApiOutcome × List String :=
  if ns ∈ cluster then (.success, cluster.filter (fun x => x != ns))
  else (.apiError 404, cluster)

/-! ## DNS-1123 label grammar (from the specification) -/

/-- Decides membership in the grammar the specification requires of
sanitized names: nonempty, at most 63 characters drawn from lowercase
alphanumerics and dashes, beginning and ending with an alphanumeric. -/
def isDns1123Label (s : String) : Bool :=
  let l := s.toList
  !l.isEmpty && decide (l.length ≤ 63)
    && l.all (fun c => isLowerAlnum c || c = '-')
    && isLowerAlnum (l.headD '-') && isLowerAlnum (l.getLastD '-')

/-! ## Support lemmas for the sanitizer -/

theorem collapseDashes_sublist : ∀ l : List Char, List.Sublist (collapseDashes l) l
  | [] => List.Sublist.refl []
  | [c] => List.Sublist.refl [c]
  | c :: d :: rest => by
      unfold collapseDashes
      by_cases h : c = '-' && d = '-'
      · simp only [h, if_true]
        exact (collapseDashes_sublist (d :: rest)).cons c
      · simp only [h, if_false]
        exact (collapseDashes_sublist (d :: rest)).cons₂ c

theorem dropTrailingDashes_sublist : ∀ l : List Char, List.Sublist (dropTrailingDashes l) l
  | [] => List.Sublist.refl []
  | c :: rest => by
      unfold dropTrailingDashes
      by_cases h : (dropTrailingDashes rest).isEmpty && c = '-'
      · simp only [h, if_true]
        exact List.nil_sublist _
      · simp only [h, if_false]
        exact (dropTrailingDashes_sublist rest).cons₂ c

theorem stripDashes_subset (l : List Char) : stripDashes l ⊆ l := by
  unfold stripDashes
  intro x hx
  have h1 : x ∈ l.dropWhile (fun c => c = '-') :=
    (dropTrailingDashes_sublist _).subset hx
  exact ((List.dropWhile_suffix _).sublist).subset h1

theorem all_take (p : Char → Bool) (l : List Char) (n : Nat) (h : l.all p = true) :
    (l.take n).all p = true := by
  rw [List.all_eq_true] at h ⊢
  exact fun x hx => h x (List.take_subset n l hx)

theorem digitChar_isLowerAlnum (n : Nat) (h : n < 10) :
    isLowerAlnum (Nat.digitChar n) = true := by
  interval_cases n <;> decide

theorem toDigitsCore_all (f : Nat) : ∀ (n : Nat) (l : List Char),
    l.all (fun c => isLowerAlnum c || c = '-') = true →
    (Nat.toDigitsCore 10 f n l).all (fun c => isLowerAlnum c || c = '-') = true := by
  induction f with
  | zero => intro n l h; simpa [Nat.toDigitsCore] using h
  | succ f ih =>
      intro n l h
      have hd : ((Nat.digitChar (n % 10)) :: l).all
          (fun c => isLowerAlnum c || c = '-') = true := by
        simp only [List.all_cons, h, Bool.and_true]
        simp [digitChar_isLowerAlnum (n % 10) (Nat.mod_lt n (by norm_num))]
      unfold Nat.toDigitsCore
      by_cases hz : n / 10 = 0
      · simpa [hz] using hd
      · simpa [hz] using ih (n / 10) _ hd

theorem repr_all_digits (n : Nat) :
    (Nat.repr n).data.all (fun c => isLowerAlnum c || c = '-') = true := by
  show (Nat.toDigitsCore 10 (n + 1) n []).all _ = true
  exact toDigitsCore_all (n + 1) n [] rfl

theorem sanitizeClean_all (s : String) :
    (sanitizeClean s).all (fun c => isLowerAlnum c || c = '-') = true := by
  rw [List.all_eq_true]
  intro x hx
  have hx2 : x ∈ (((s.toList.map (fun c => if c = ' ' then '-' else c)).map
      Char.toLower).filter (fun c => isLowerAlnum c || c = '-')) :=
    (collapseDashes_sublist _).subset (stripDashes_subset _ hx)
  exact (List.mem_filter.mp hx2).2

theorem fallback_toList (userId : Nat) :
    ("user-" ++ Nat.repr userId).toList
      = 'u' :: 's' :: 'e' :: 'r' :: '-' :: (Nat.repr userId).data := by
  show ("user-" ++ Nat.repr userId).data = _
  rw [String.data_append]
  rfl

theorem sanitizeCoreList_spec (s : String) (userId : Nat) :
    (sanitizeCoreList s userId).length ≤ 63
    ∧ sanitizeCoreList s userId ≠ []
    ∧ isLowerAlnum ((sanitizeCoreList s userId).headD '-') = true
    ∧ (sanitizeCoreList s userId).all (fun c => isLowerAlnum c || c = '-') = true := by
  have main : ∀ out : List Char, out ≠ [] →
      isLowerAlnum (out.headD '-') = true →
      out.all (fun c => isLowerAlnum c || c = '-') = true →
      (out.take 63).length ≤ 63 ∧ out.take 63 ≠ []
        ∧ isLowerAlnum ((out.take 63).headD '-') = true
        ∧ (out.take 63).all (fun c => isLowerAlnum c || c = '-') = true := by
    intro out hne hhead hall
    refine ⟨?_, ?_, ?_, all_take _ _ _ hall⟩
    · rw [List.length_take]; exact min_le_left _ _
    · cases out with
      | nil => exact absurd rfl hne
      | cons a t => simp
    · cases out with
      | nil => exact absurd rfl hne
      | cons a t =>
          show isLowerAlnum a = true
          simpa using hhead
  unfold sanitizeCoreList
  by_cases hcond : (sanitizeClean s).isEmpty || !isLowerAlnum ((sanitizeClean s).headD 'a')
  · rw [if_pos hcond]
    apply main
    · rw [fallback_toList]; simp
    · rw [fallback_toList]
      show isLowerAlnum 'u' = true
      decide
    · rw [fallback_toList]
      simp only [List.all_cons, repr_all_digits, Bool.and_true]
      decide
  · rw [if_neg hcond]
    simp only [Bool.or_eq_true, Bool.not_eq_true', not_or, Bool.not_eq_false] at hcond
    obtain ⟨hne, hh⟩ := hcond
    have hnil : sanitizeClean s ≠ [] := by
      simpa [List.isEmpty_iff] using hne
    refine main _ hnil ?_ (sanitizeClean_all s)
    cases hcl : sanitizeClean s with
    | nil => exact absurd hcl hnil
    | cons a t =>
        rw [hcl] at hh
        simpa using hh

/-! ## Concrete sample data used by witnesses and counterexamples -/

/-- Sample record: a running environment owned by user 7, as produced by a
successful create-and-deploy for `env-user-7`. -/
def sampleEnv : EnvironmentRecord :=
  { id := 1, name := some "env-user-7", template_id := 21, user_id := 7,
    k8s_namespace := "kubdev-users", k8s_deployment_name := "env-user-7",
    k8s_service_name := some "svc-env-user-7", k8s_ingress_name := none,
    status := .running, status_message := none,
    access_url := some "http://env-user-7.kubdev.local",
    git_repository := none, port_mappings := [], expires_at := none,
    started_at := some 1, stopped_at := none, last_accessed_at := none }

/-- Sample cluster configuration: reachable cluster, every call succeeding. -/
def sampleCfg : ClusterConfig :=
  { avail := true, template := some { exposed_ports := some [8080] },
    statusOut := .success, statusReady := some 1, statusTotal := some 1,
    oNs := .success, oQuota := .success, oDep := .success, oSvc := .success,
    oIng := .success, stopScale := .success, restartScaleDown := .success,
    restartScaleUp := .success, deleteNs := .success, now := 5 }

/-- Sample record in `STOPPED` state. -/
def stoppedEnv : EnvironmentRecord := { sampleEnv with status := .stopped }

/-- Sample record in `CREATING` state with no access URL yet, as produced by
`create_environment_from_yaml`. -/
def creatingEnvNoUrl : EnvironmentRecord :=
  { sampleEnv with status := .creating, access_url := none }

/-! ## Claims -/

/-- C2 counterexample: user 8 (a plain developer, not the owner of
`sampleEnv`, which belongs to user 7) requests `stop`; the endpoint, which
takes no caller principal at all, answers success rather than `Forbidden`,
commits a state change, and invokes the cluster gateway. -/
theorem C2_counterexample :
    (8 : Nat) ≠ sampleEnv.user_id
    ∧ isAdministrator { id := 8, name := "intruder", role := .developer } = false
    ∧ (environment_action (some sampleEnv) "stop" sampleCfg).response
        = .ok "Action stop executed successfully"
    ∧ (environment_action (some sampleEnv) "stop" sampleCfg).commits ≠ []
    ∧ (environment_action (some sampleEnv) "stop" sampleCfg).steps ≠ [] := by
  decide

/-- C2 (amended): `environment_action` takes no caller principal and performs
no ownership or role check: for every record and every cluster configuration,
a `stop` request is executed — the response is success, the record is
committed `STOPPED`, and the scale-down gateway call is issued — so a
non-owner, non-administrator caller is never answered `Forbidden`. -/
theorem C2_no_ownership_check (env : EnvironmentRecord) (cfg : ClusterConfig) :
    (environment_action (some env) "stop" cfg).response
        = .ok "Action stop executed successfully"
    ∧ (environment_action (some env) "stop" cfg).commits.map (fun r => r.status)
        = [.stopped]
    ∧ (environment_action (some env) "stop" cfg).steps
        = [Step.call (.scaleDeploymentCall env.k8s_namespace env.k8s_deployment_name 0),
           Step.notifySlack] :=
  ⟨rfl, rfl, rfl⟩

/-- C4 counterexample: with a reachable cluster, the namespace deletion fails
with an `ApiException` other than 404 (HTTP 500), so `delete_namespace`
reports `false`; `delete_environment` nevertheless removes the record, posts
the delete notification and returns success — the claim required the record
to be left intact and the error surfaced. -/
theorem C4_counterexample :
    delete_namespace true (.apiError 500) = .ok false
    ∧ (delete_environment sampleEnv true (.apiError 500)).recordRemoved = true
    ∧ (delete_environment sampleEnv true (.apiError 500)).outcome
        = .ok "Environment deleted successfully - namespace and all resources removed"
    ∧ Step.notifySlack ∈ (delete_environment sampleEnv true (.apiError 500)).steps := by
  decide

/-- C4 (amended): Delete first deletes the environment's namespace.  When
that deletion raises — cluster unavailable or unexpected exception — the
record is kept and the wrapped error surfaces.  But the boolean result of
`delete_namespace` is ignored: every `ApiException` outcome, 404 or not, is
treated exactly like success, so the notification is sent and the record
removed even when the namespace deletion failed with a non-404 API error. -/
theorem C4_delete_commit_rules (env : EnvironmentRecord) (out : ApiOutcome) (s : Nat) :
    (delete_environment env false out).recordRemoved = false
    ∧ (delete_environment env false out).outcome
        = .error ("Failed to delete environment: " ++ unavailableMsg)
    ∧ (delete_environment env true .unexpected).recordRemoved = false
    ∧ (delete_environment env true .unexpected).outcome
        = .error "Failed to delete environment: unexpected error"
    ∧ delete_environment env true (.apiError s) = delete_environment env true .success
    ∧ (delete_environment env true .success).recordRemoved = true
    ∧ (delete_environment env true .success).steps
        = [Step.call (.deleteNamespaceCall env.k8s_namespace), Step.notifySlack] := by
  refine ⟨rfl, rfl, rfl, rfl, ?_, rfl, rfl⟩
  by_cases h : s = 404 <;>
    simp [delete_environment, delete_namespace, h]

/-- C5 counterexample: a record in `STOPPED` state, with the cluster
unreachable so that the scale call fails (`scale_deployment` returns
`false`), is still committed `STOPPED` by `stop_environment` — the claim
required a `Running` precondition and a successful-or-404 scale result. -/
theorem C5_counterexample :
    stoppedEnv.status ≠ .running
    ∧ scale_deployment false .unexpected stoppedEnv.k8s_namespace
        stoppedEnv.k8s_deployment_name 0 = false
    ∧ (stop_environment stoppedEnv false .unexpected 9).commits.map (fun r => r.status)
        = [.stopped]
    ∧ (stop_environment stoppedEnv false .unexpected 9).outcome
        = .ok "Environment stopped successfully - scaled down to 0" := by
  decide

/-- C5 (amended): Stop never examines the record's state and never examines
the scale result: for every record and every scale outcome it issues exactly
one scale-to-zero gateway call and commits `STOPPED` with `stopped_at` set
and a fixed state message; the result is identical whether the scale call
succeeds, fails, or reports a missing deployment. -/
theorem C5_stop_unconditional (env : EnvironmentRecord) (avail : Bool)
    (out : ApiOutcome) (now : Nat) :
    (stop_environment env avail out now).commits
      = [{ env with
            status := .stopped, stopped_at := some now,
            status_message := some "Environment stopped - scaled down to 0" }]
    ∧ (stop_environment env avail out now).steps.filter (fun st =>
          match st with
          | .call (.scaleDeploymentCall _ _ _) => true
          | _ => false)
      = [Step.call (.scaleDeploymentCall env.k8s_namespace env.k8s_deployment_name 0)]
    ∧ stop_environment env avail out now = stop_environment env true .success now :=
  ⟨rfl, rfl, rfl⟩

/-- C6 counterexample: the second (scale-up) call of a restart fails with an
`ApiException` (HTTP 500), `scale_deployment` returning `false`; the record
is nevertheless committed `RUNNING` — the claim required `Error`. -/
theorem C6_counterexample :
    scale_deployment true (.apiError 500) sampleEnv.k8s_namespace
        sampleEnv.k8s_deployment_name 1 = false
    ∧ (restart_environment sampleEnv true .success (.apiError 500)).commits.map
        (fun r => r.status) = [.running]
    ∧ EnvironmentStatus.error ∉
        (restart_environment sampleEnv true .success (.apiError 500)).commits.map
          (fun r => r.status) := by
  decide

/-- C6 (amended): Restart scales the deployment to 0 replicas, waits the
5-second grace period, scales to 1 replica, and then unconditionally commits
`RUNNING`; the scale results are discarded, so a failing second scale call
(which returns `false` rather than raising) still leaves the record marked
`Running`, never `Error`. -/
theorem C6_restart_behavior (env : EnvironmentRecord) (avail : Bool)
    (oDown oUp : ApiOutcome) :
    (restart_environment env avail oDown oUp).steps
      = [Step.call (.scaleDeploymentCall env.k8s_namespace env.k8s_deployment_name 0),
         Step.sleep 5,
         Step.call (.scaleDeploymentCall env.k8s_namespace env.k8s_deployment_name 1)]
    ∧ (restart_environment env avail oDown oUp).commits.map (fun r => r.status)
        = [.running]
    ∧ restart_environment env avail oDown oUp
        = restart_environment env avail oDown .success :=
  ⟨rfl, rfl, rfl⟩

/-- C9: namespace creation and deletion are idempotent.  `create_namespace`
maps the `AlreadyExists` outcome (HTTP 409) to `Ok`, `delete_namespace` maps
the `NotFound` outcome (HTTP 404) to success, and over the modelled cluster
state a repeated create or delete leaves the cluster exactly as after the
first call with both calls reporting success. -/
theorem C9_namespace_idempotent (cluster : List String) (ns : String) :
    create_namespace true (.apiError 409) = .ok true
    ∧ delete_namespace true (.apiError 404) = .ok true
    ∧ ((apiCreateNamespace (apiCreateNamespace cluster ns).2 ns).2
          = (apiCreateNamespace cluster ns).2
        ∧ create_namespace true (apiCreateNamespace cluster ns).1 = .ok true
        ∧ create_namespace true
            (apiCreateNamespace (apiCreateNamespace cluster ns).2 ns).1 = .ok true)
    ∧ ((apiDeleteNamespace (apiDeleteNamespace cluster ns).2 ns).2
          = (apiDeleteNamespace cluster ns).2
        ∧ delete_namespace true (apiDeleteNamespace cluster ns).1 = .ok true
        ∧ delete_namespace true
            (apiDeleteNamespace (apiDeleteNamespace cluster ns).2 ns).1 = .ok true) := by
  refine ⟨rfl, rfl, ⟨?_, ?_, ?_⟩, ⟨?_, ?_, ?_⟩⟩ <;>
    by_cases h : ns ∈ cluster <;>
      simp [apiCreateNamespace, apiDeleteNamespace, create_namespace, delete_namespace, h,
        List.mem_filter]

/-- C10: `scale_deployment` is total over its failure cases: it returns a
plain boolean (it cannot raise), `true` exactly when the cluster is
reachable and the patch succeeds, and `false` on an unreachable cluster, on
every `ApiException` (404 for a missing deployment included) and on any
unexpected exception — so a 404 is indistinguishable from any other failure
by the result. -/
theorem C10_scale_total (avail : Bool) (out : ApiOutcome) (ns nm : String)
    (replicas s1 s2 : Nat) :
    (scale_deployment avail out ns nm replicas
        = match out with
          | .success => avail
          | .apiError _ => false
          | .unexpected => false)
    ∧ scale_deployment avail (.apiError 404) ns nm replicas
        = scale_deployment avail (.apiError s1) ns nm replicas
    ∧ scale_deployment avail (.apiError s2) ns nm replicas
        = scale_deployment avail .unexpected ns nm replicas
    ∧ scale_deployment false out ns nm replicas = false := by
  refine ⟨?_, ?_, ?_, ?_⟩ <;> cases avail <;> cases out <;> rfl

/-- Every `RUNNING` record committed by `deploy_environment` carries the
ingress access URL assigned in the same task. -/
theorem deploy_running_commit_url (env : EnvironmentRecord)
    (template : Option ProjectTemplate) (avail : Bool)
    (oNs oQuota oDep oSvc oIng : ApiOutcome) (now : Nat) (r : EnvironmentRecord)
    (hr : r ∈ (deploy_environment env template avail oNs oQuota oDep oSvc oIng now).commits)
    (hrun : r.status = .running) :
    r.access_url = some ("http://" ++ env.k8s_deployment_name ++ ".kubdev.local") := by
  unfold deploy_environment at hr
  cases template with
  | none => simp at hr
  | some t =>
    cases hNs : create_namespace avail oNs with
    | error e =>
        rw [hNs] at hr
        simp at hr
        rcases hr with h | h <;> rw [h] at hrun <;> simp at hrun
    | ok b1 =>
    rw [hNs] at hr
    cases hQ : create_resource_quota avail oQuota with
    | error e =>
        rw [hQ] at hr
        simp at hr
        rcases hr with h | h <;> rw [h] at hrun <;> simp at hrun
    | ok b2 =>
    rw [hQ] at hr
    cases hD : create_deployment avail oDep with
    | error e =>
        rw [hD] at hr
        simp at hr
        rcases hr with h | h <;> rw [h] at hrun <;> simp at hrun
    | ok b3 =>
    rw [hD] at hr
    cases hS : create_service avail oSvc with
    | error e =>
        rw [hS] at hr
        simp at hr
        rcases hr with h | h <;> rw [h] at hrun <;> simp at hrun
    | ok b4 =>
    rw [hS] at hr
    cases hI : create_ingress avail oIng with
    | error e =>
        rw [hI] at hr
        simp at hr
        rcases hr with h | h <;> rw [h] at hrun <;> simp at hrun
    | ok b5 =>
        rw [hI] at hr
        simp at hr
        rcases hr with h | h
        · rw [h] at hrun; simp at hrun
        · rw [h]; simp [String.append_assoc]

/-- `_wait_for_deployment_ready` never touches `access_url`. -/
theorem wait_preserves_access_url (env : EnvironmentRecord) :
    ∀ polls, (wait_for_deployment_ready env polls).access_url = env.access_url
  | [] => rfl
  | .view ds :: rest => by
      unfold wait_for_deployment_ready
      by_cases h : 1 ≤ ds.ready_replicas
      · simp [h]
      · simp only [h, if_false]
        exact wait_preserves_access_url env rest
  | .failure e :: _ => rfl

/-- Every `RUNNING` record committed by `start_environment` either keeps the
record's previous `access_url` unchanged (the scale-up branch resolves no
URL) or, in the redeploy branch, carries the URL set by
`deploy_environment`. -/
theorem start_running_commit_url (env : EnvironmentRecord)
    (template : Option ProjectTemplate) (avail : Bool) (statusOut : ApiOutcome)
    (ready total : Option Nat) (oNs oQuota oDep oSvc oIng : ApiOutcome) (now : Nat)
    (r : EnvironmentRecord)
    (hr : r ∈ (start_environment env template avail statusOut ready total
        oNs oQuota oDep oSvc oIng now).commits)
    (hrun : r.status = .running) :
    r.access_url = env.access_url
      ∨ r.access_url = some ("http://" ++ env.k8s_deployment_name ++ ".kubdev.local") := by
  unfold start_environment at hr
  by_cases h1 : env.status = .running
  · rw [if_pos h1] at hr
    simp at hr
  · rw [if_neg h1] at hr
    by_cases h2 : (get_deployment_status avail statusOut env.k8s_namespace
        env.k8s_deployment_name ready total).status = "not_found"
    · rw [if_pos h2] at hr
      dsimp only at hr
      cases ho : (deploy_environment env template avail oNs oQuota oDep oSvc oIng now).outcome with
      | ok m =>
          rw [ho] at hr
          dsimp only at hr
          exact Or.inr (deploy_running_commit_url env template avail oNs oQuota oDep oSvc oIng
            now r hr hrun)
      | error e =>
          rw [ho] at hr
          dsimp only at hr
          rw [List.mem_append, List.mem_singleton] at hr
          rcases hr with h | h
          · exact Or.inr (deploy_running_commit_url env template avail oNs oQuota oDep oSvc oIng
              now r h hrun)
          · rw [h] at hrun; simp at hrun
    · rw [if_neg h2] at hr
      simp at hr
      rw [hr]
      exact Or.inl rfl

/-- C1 counterexample: a `CREATING` record with `access_url = null` is
committed `RUNNING` both by the status reconciler (on a ready poll) and by
`start_environment` (scale-up branch), in both cases still with
`access_url = null` — the claim required every `Running` commit to have a
non-null URL resolved in the same task. -/
theorem C1_counterexample :
    creatingEnvNoUrl.access_url = none
    ∧ (wait_for_deployment_ready creatingEnvNoUrl
        [PollResult.view ⟨"env-user-7", "kubdev-users", "Running", 1, 1⟩]).status
        = .running
    ∧ (wait_for_deployment_ready creatingEnvNoUrl
        [PollResult.view ⟨"env-user-7", "kubdev-users", "Running", 1, 1⟩]).access_url
        = none
    ∧ (start_environment creatingEnvNoUrl none true .success (some 1) (some 1)
        .success .success .success .success .success 4).commits.map (fun r => r.status)
        = [.running]
    ∧ (start_environment creatingEnvNoUrl none true .success (some 1) (some 1)
        .success .success .success .success .success 4).commits.map (fun r => r.access_url)
        = [none] := by
  decide

/-- C1 (amended): a `RUNNING` commit made by `deploy_environment` always
carries the non-null ingress URL assigned in the same task; but the status
reconciler (`_wait_for_deployment_ready`) leaves `access_url` untouched, and
`start_environment` commits `RUNNING` without resolving an URL (its scale-up
branch keeps the previous `access_url` value), so a record whose
`access_url` is null can be committed `RUNNING` by those two paths. -/
theorem C1_running_commit_rules :
    (∀ env template avail oNs oQuota oDep oSvc oIng now r,
        r ∈ (deploy_environment env template avail oNs oQuota oDep oSvc oIng now).commits →
        r.status = .running →
        r.access_url = some ("http://" ++ env.k8s_deployment_name ++ ".kubdev.local"))
    ∧ (∀ env polls, (wait_for_deployment_ready env polls).access_url = env.access_url)
    ∧ (∀ env template avail statusOut ready total oNs oQuota oDep oSvc oIng now r,
        r ∈ (start_environment env template avail statusOut ready total
            oNs oQuota oDep oSvc oIng now).commits →
        r.status = .running →
        r.access_url = env.access_url
          ∨ r.access_url = some ("http://" ++ env.k8s_deployment_name ++ ".kubdev.local")) :=
  ⟨fun env template avail oNs oQuota oDep oSvc oIng now r hr hrun =>
      deploy_running_commit_url env template avail oNs oQuota oDep oSvc oIng now r hr hrun,
    fun env polls => wait_preserves_access_url env polls,
    fun env template avail statusOut ready total oNs oQuota oDep oSvc oIng now r hr hrun =>
      start_running_commit_url env template avail statusOut ready total
        oNs oQuota oDep oSvc oIng now r hr hrun⟩

/-- C1 witness: the theorem applied to the concrete successful deployment of
`sampleEnv`, whose final commit is `RUNNING` and carries the ingress URL. -/
theorem C1_running_commit_rules_witness :
    ((deploy_environment sampleEnv (some { exposed_ports := some [8080] }) true
        .success .success .success .success .success 3).commits.getLastD sampleEnv).access_url
      = some ("http://" ++ sampleEnv.k8s_deployment_name ++ ".kubdev.local") :=
  C1_running_commit_rules.1 sampleEnv (some { exposed_ports := some [8080] }) true
    .success .success .success .success .success 3 _ (by decide) (by decide)

/-- Sample caller from the specification's scenario 1. -/
def gyuRi : User := { id := 7, name := "Gyu Ri", role := .developer }

/-- Sample uploaded manifest with a caller-forged `spec.userName`. -/
def sampleCr : CustomObject :=
  { apiVersion := some "kubedev.my-project.com/v1alpha1",
    kind := some "KubeDevEnvironment",
    metadata_name := some "my-env", metadata_namespace := some "kubdev-users",
    spec_userName := some "attacker-supplied", spec_gitRepository := none }

/-- C3 counterexample: the endpoint path submits the caller's raw principal
name `"Gyu Ri"` as `spec.userName`, which differs from the sanitized form
`"gyu-ri"` — the claim required the submitted value to equal the sanitized
principal name on every path. -/
theorem C3_counterexample :
    (endpoint_create_environment_from_yaml true 21 "env.yaml" gyuRi .utf8
        (.dict sampleCr) true .success 1).submitted
      = some { sampleCr with spec_userName := some "Gyu Ri" }
    ∧ sanitize_for_k8s gyuRi.name gyuRi.id = "gyu-ri"
    ∧ (endpoint_create_environment_from_yaml true 21 "env.yaml" gyuRi .utf8
        (.dict sampleCr) true .success 1).submitted.map (fun cr => cr.spec_userName)
      ≠ some (some (sanitize_for_k8s gyuRi.name gyuRi.id)) := by
  decide

/-- C3 (amended): in the service path every submitted custom resource carries
`spec.userName = sanitize_for_k8s(principal name)` regardless of the
manifest-supplied value; in the endpoint path the submitted `spec.userName`
is the caller's raw principal name, unsanitized. -/
theorem C3_username_injection :
    (∀ templateFound template_id user decode parse avail crOut newId cr,
        (create_environment_from_yaml templateFound template_id user decode parse
            avail crOut newId).submitted = some cr →
        cr.spec_userName = some (sanitize_for_k8s user.name user.id))
    ∧ (∀ templateFound template_id filename user decode parse avail crOut newId cr,
        (endpoint_create_environment_from_yaml templateFound template_id filename user
            decode parse avail crOut newId).submitted = some cr →
        cr.spec_userName = some user.name) := by
  constructor
  · intro templateFound template_id user decode parse avail crOut newId cr hh
    unfold create_environment_from_yaml at hh
    repeat' (first | split at hh | dsimp only at hh)
    all_goals try (cases hh)
    all_goals simp_all
  · intro templateFound template_id filename user decode parse avail crOut newId cr hh
    unfold endpoint_create_environment_from_yaml at hh
    repeat' (first | split at hh | dsimp only at hh)
    all_goals try (cases hh)
    all_goals simp_all

/-- C3 witness: the theorem applied to the concrete service-path creation by
user `Gyu Ri`, whose submitted custom resource carries the sanitized name. -/
theorem C3_username_injection_witness :
    ({ sampleCr with
        spec_userName := some (sanitize_for_k8s gyuRi.name gyuRi.id),
        metadata_name := some ("env-user-" ++ Nat.repr gyuRi.id) } : CustomObject).spec_userName
      = some (sanitize_for_k8s gyuRi.name gyuRi.id) :=
  C3_username_injection.1 true 21 gyuRi .utf8 (.dict sampleCr) true .success 1 _ (by decide)

/-- C7: a create request that fails — template missing, undecodable upload,
malformed or non-dictionary YAML, wrong `apiVersion`/`kind`, or a cluster
error during custom-resource submission — persists no environment record, in
both the service path and the endpoint path. -/
theorem C7_no_record_on_failed_create
    (templateFound : Bool) (template_id : Nat) (filename : String) (user : User)
    (decode : YamlDecode) (parse : YamlParse) (avail : Bool) (crOut : ApiOutcome)
    (newId : Nat) :
    ((create_environment_from_yaml templateFound template_id user decode parse
        avail crOut newId).outcome.isOk = false →
      (create_environment_from_yaml templateFound template_id user decode parse
        avail crOut newId).persisted = none)
    ∧ ((endpoint_create_environment_from_yaml templateFound template_id filename user
        decode parse avail crOut newId).outcome.isOk = false →
      (endpoint_create_environment_from_yaml templateFound template_id filename user
        decode parse avail crOut newId).persisted = none) := by
  constructor
  · intro h
    unfold create_environment_from_yaml at h ⊢
    repeat' (first | split at h | dsimp only at h)
    all_goals try (dsimp only; repeat' split)
    all_goals simp_all [Except.isOk, Except.toBool]
  · intro h
    unfold endpoint_create_environment_from_yaml at h ⊢
    repeat' (first | split at h | dsimp only at h)
    all_goals try (dsimp only; repeat' split)
    all_goals simp_all [Except.isOk, Except.toBool]

/-- C7 witness: the theorem applied to a create with a missing template
(service path) and to a create whose custom-resource submission fails with a
cluster API error (endpoint path); neither persists a record. -/
theorem C7_no_record_on_failed_create_witness :
    (create_environment_from_yaml false 21 gyuRi .utf8 (.dict sampleCr) true
        .success 1).persisted = none
    ∧ (endpoint_create_environment_from_yaml true 21 "env.yaml" gyuRi .utf8
        (.dict sampleCr) true (.apiError 503) 1).persisted = none :=
  ⟨(C7_no_record_on_failed_create false 21 "env.yaml" gyuRi .utf8 (.dict sampleCr)
      true .success 1).1 (by decide),
   (C7_no_record_on_failed_create true 21 "env.yaml" gyuRi .utf8 (.dict sampleCr)
      true (.apiError 503) 1).2 (by decide)⟩

/-- Sixty-four-character name whose cleaned form has a dash at index 62. -/
def longName : String := String.mk (List.replicate 62 'a' ++ ['-', 'b'])

set_option maxRecDepth 8192 in
/-- C8 counterexample: truncating the cleaned name to 63 characters can leave
a trailing dash, so the result violates the claimed DNS-1123 grammar; and an
empty cleaned string is replaced by `user-<id>` (here `user-7`), not by the
claimed `user`, while the claimed `u`-prefix rule does not exist in the
code. -/
theorem C8_counterexample :
    isDns1123Label (sanitize_for_k8s longName 0) = false
    ∧ (sanitize_for_k8s longName 0).data.length = 63
    ∧ (sanitize_for_k8s longName 0).data.getLastD 'x' = '-'
    ∧ sanitize_for_k8s "" 7 = "user-7"
    ∧ sanitize_for_k8s "" 7 ≠ "user"
    ∧ sanitizeClean (asciiOnly "") = [] := by
  decide

/-- C8 (amended): every sanitized name is nonempty, has at most 63
characters, starts with a lowercase alphanumeric and consists of characters
in `[a-z0-9-]` — but the final truncation may leave a trailing dash, so full
DNS-1123 conformance can fail; when the cleaned string is empty the result
is `user-<id>` (truncated to 63), and no `u`-prefix rule exists because a
nonempty cleaned string always starts with an alphanumeric. -/
theorem C8_sanitize_invariant (name : String) (userId : Nat) :
    (sanitize_for_k8s name userId).data.length ≤ 63
    ∧ (sanitize_for_k8s name userId).data ≠ []
    ∧ isLowerAlnum ((sanitize_for_k8s name userId).data.headD '-') = true
    ∧ (sanitize_for_k8s name userId).data.all (fun c => isLowerAlnum c || c = '-') = true
    ∧ (sanitizeClean (asciiOnly name) = [] →
        sanitize_for_k8s name userId = ⟨(("user-" ++ Nat.repr userId).toList).take 63⟩) := by
  refine ⟨(sanitizeCoreList_spec _ _).1, (sanitizeCoreList_spec _ _).2.1,
    (sanitizeCoreList_spec _ _).2.2.1, (sanitizeCoreList_spec _ _).2.2.2, ?_⟩
  intro hempty
  unfold sanitize_for_k8s sanitizeCoreList
  rw [hempty]
  simp

/-- C8 witness: the theorem applied at `"Gyu Ri"` (length bound) and at the
empty name with id 7 (the `user-7` fallback). -/
theorem C8_sanitize_invariant_witness :
    (sanitize_for_k8s "Gyu Ri" 7).data.length ≤ 63
    ∧ sanitize_for_k8s "" 7 = ⟨(("user-" ++ Nat.repr 7).toList).take 63⟩ :=
  ⟨(C8_sanitize_invariant "Gyu Ri" 7).1,
   (C8_sanitize_invariant "" 7).2.2.2.2 (by decide)⟩

end KubDev
